import Mathlib

/-
Verification of the ddtrace pyramid and molten web-framework integrations.

Shallow embedding of two source files:
  src/ddtrace/contrib/pyramid/trace.py   (trace_tween_factory, trace_tween, trace_render, includeme)
  src/ddtrace/contrib/molten/patch.py    (patch, patch_app_call, the nested _w_start_response shim)

Spans are modelled as explicit records; every tag-setting call of the
source becomes an explicit record update, in source order.  Python string
builtins used by the source (str.partition, int(), dict(), urlencode) are
modelled as executable Lean functions below.
-/

namespace DDTrace

/-- The space character, the only separator the source passes to partition. -/
def charSpace : Char := Char.ofNat 32

/-- The plus sign accepted by the Python int() parser. -/
def charPlus : Char := Char.ofNat 43

/-- The minus sign accepted by the Python int() parser. -/
def charMinus : Char := Char.ofNat 45

/-- Models Python str.partition(sep) for a single-character separator (the
source only partitions on a space): the text before the first occurrence of
sep, the separator, and the rest; when sep does not occur the result is the
whole string followed by two empty strings. -/
def pyPartition (s : String) (sep : Char) : String × String × String :=
  let pre := s.data.takeWhile (fun c => c != sep)
  match s.data.dropWhile (fun c => c != sep) with
  | [] => (⟨pre⟩, "", "")
  | _ :: tail => (⟨pre⟩, ⟨[sep]⟩, ⟨tail⟩)

/-- ASCII whitespace stripped by Python int(): space and the control
characters tab through carriage return. -/
def isPySpace (c : Char) : Bool :=
  c.toNat == 32 || (9 ≤ c.toNat && c.toNat ≤ 13)

/-- Strip leading and trailing whitespace from a character list. -/
def pyStrip (cs : List Char) : List Char :=
  ((cs.dropWhile isPySpace).reverse.dropWhile isPySpace).reverse

/-- Value of a nonempty all-digit character run, else none. -/
def digitsToNat? (cs : List Char) : Option Nat :=
  if cs.isEmpty then none
  else if cs.all Char.isDigit then
    some (cs.foldl (fun n c => n * 10 + (c.toNat - 48)) 0)
  else none

/-- Models the Python builtin int() applied to a string, as used on status
tokens: surrounding whitespace is stripped, an optional sign is accepted,
and the remainder must be a nonempty run of decimal digits; otherwise the
result is none (the source catches the corresponding ValueError).  Digit
grouping underscores and non-ASCII digits are out of the modelled fragment. -/
def pyIntParse (s : String) : Option Int :=
  match pyStrip s.data with
  | [] => none
  | c :: cs =>
    if c == charMinus then (digitsToNat? cs).map (fun n => -(n : Int))
    else if c == charPlus then (digitsToNat? cs).map (fun n => (n : Int))
    else (digitsToNat? (c :: cs)).map (fun n => (n : Int))

/-- Status-code metadata value: an integer when the status token parsed,
otherwise the raw string token (the source keeps the unparsed string). -/
inductive StatusVal where
  | int (n : Int)
  | str (s : String)
deriving DecidableEq, Repr

/-- Models Python str() on a status value, as used by u"{} {}".format. -/
def StatusVal.render : StatusVal → String
  | .int n => toString n
  | .str s => s

/-- Models Span.set_tag_str: overwrite the value of an existing key, else
append the pair. -/
def setTagStr (tags : List (String × String)) (k v : String) : List (String × String) :=
  if tags.any (fun p => p.1 == k) then
    tags.map (fun p => if p.1 == k then (p.1, v) else p)
  else tags ++ [(k, v)]

/-- Models Span.get_tag: the value stored for the key, if any. -/
def getTag (tags : List (String × String)) (k : String) : Option String :=
  (tags.find? (fun p => p.1 == k)).map Prod.snd

/-- Python truthiness of a get_tag result: None and the empty string are
falsy, every other string is truthy. -/
def pyTruthyStrOpt : Option String → Bool
  | none => false
  | some s => s != ""

/-- Models one insertion step of Python dict(pairs): a later value for an
existing key replaces the stored value in place, a new key is appended. -/
def pyDictInsert (acc : List (String × String)) (kv : String × String) :
    List (String × String) :=
  if acc.any (fun p => p.1 == kv.1) then
    acc.map (fun p => if p.1 == kv.1 then (p.1, kv.2) else p)
  else acc ++ [kv]

/-- Models Python dict(pairs) built from an association list. -/
def pyDict (l : List (String × String)) : List (String × String) :=
  l.foldl pyDictInsert []

/-- Models urlencode over a dict, up to percent-escaping (no key or value
needing escapes appears in the claims). -/
def urlencodeModel (l : List (String × String)) : String :=
  String.intercalate "&" (l.map (fun p => p.1 ++ "=" ++ p.2))

/-- Models the Python idiom (opt or default) for an optional string setting:
None and the empty string fall back to the default. -/
def pyOrStr (v : Option String) (d : String) : String :=
  match v with
  | some s => if s == "" then d else s
  | none => d

/-- HTTP metadata recorded on a span by trace_utils.set_http_meta; a None
argument leaves the stored field unchanged. -/
structure HttpMeta where
  method : Option String
  url : Option String
  statusCode : Option StatusVal
  query : Option String
  requestHeaders : Option (List (String × String))
  responseHeaders : Option (List (String × String))
  route : Option String
deriving DecidableEq, Repr

/-- Empty metadata record of a freshly created span. -/
def HttpMeta.empty : HttpMeta :=
  ⟨none, none, none, none, none, none, none⟩

/-- Keep the old stored value when the new argument is None. -/
def updOpt {α : Type} (new old : Option α) : Option α :=
  match new with
  | some v => some v
  | none => old

/-- Models trace_utils.set_http_meta with the keyword arguments the two
integrations pass; arguments are positional here: method, url, status code,
query, request headers, response headers, route. -/
def setHttpMeta (m : HttpMeta) (method url : Option String)
    (statusCode : Option StatusVal) (query : Option String)
    (reqHeaders respHeaders : Option (List (String × String)))
    (route : Option String) : HttpMeta :=
  { method := updOpt method m.method
    url := updOpt url m.url
    statusCode := updOpt statusCode m.statusCode
    query := updOpt query m.query
    requestHeaders := updOpt reqHeaders m.requestHeaders
    responseHeaders := updOpt respHeaders m.responseHeaders
    route := updOpt route m.route }

/-- Tag key for the integration component id (ddtrace.internal.constants COMPONENT). -/
def COMPONENT : String := "component"

/-- Tag key for the kind of operation (ddtrace.constants SPAN_KIND). -/
def SPAN_KIND : String := "span.kind"

/-- Tag value SpanKind.SERVER. -/
def SPAN_KIND_SERVER : String := "server"

/-- Route tag key set by the molten router wrapper (wrappers.MOLTEN_ROUTE). -/
def MOLTEN_ROUTE : String := "molten.route"

/-- A span as manipulated by these two integrations: identity fields set at
creation, a mutable resource name, string tags, the measured and analytics
flags, HTTP metadata, and an error marker (no code path of either source
file ever sets the error marker; the tracer collaborator is out of scope). -/
structure Span where
  name : String
  service : String
  resource : String
  spanType : String
  tags : List (String × String)
  measured : Bool
  analyticsSet : Bool
  meta : HttpMeta
  error : Bool
deriving DecidableEq, Repr

/-- Collaborator calls made by the wrappers, recorded in source order; used
to state ordering properties. -/
inductive TraceEvent where
  | activateDistributedHeaders
  | spanStart
  | callHandler
  | callWrappedApp
  | callWrappedRender
  | spanFinish
deriving DecidableEq, Repr

namespace Pyramid

/-- A pyramid route as read from request.matched_route: its name and pattern. -/
structure PRoute where
  name : String
  pattern : String
deriving DecidableEq, Repr

/-- The inbound pyramid request fields the tween reads. -/
structure PRequest where
  method : String
  path_url : String
  query_string : String
  headers : List (String × String)
deriving DecidableEq, Repr

/-- A pyramid response (also the shape of a pyramid HTTPException, which is
itself a valid response): status code and headers. -/
structure PResponse where
  status_code : Int
  headers : List (String × String)
deriving DecidableEq, Repr

/-- Outcome of one invocation of the wrapped downstream handler: a normal
response, a raised pyramid HTTPException (a valid response object), or any
other raised exception, identified by name. -/
inductive HandlerOutcome where
  | ok (resp : PResponse)
  | httpException (e : PResponse)
  | unhandled (excName : String)
deriving DecidableEq, Repr

/-- One run of the downstream handler: its outcome together with the value
of request.matched_route observed after it returns or raises. -/
structure HandlerRun where
  outcome : HandlerOutcome
  matched_route : Option PRoute
deriving DecidableEq, Repr

/-- What the tween hands back to its caller: the handler response returned
normally, or the re-raised exception (HTTPException or other). -/
inductive TweenResult where
  | returned (r : PResponse)
  | raisedHttp (e : PResponse)
  | raisedOther (excName : String)
deriving DecidableEq, Repr

/-- Result of running a handler without the tween: returning is returning
and raising propagates, unchanged. -/
def handlerResult (run : HandlerRun) : TweenResult :=
  match run.outcome with
  | .ok r => .returned r
  | .httpException e => .raisedHttp e
  | .unhandled n => .raisedOther n

/-- Registry settings read by trace_tween_factory and trace_tween. -/
structure PSettings where
  service : Option String
  analyticsEnabled : Option Bool
  globalAnalyticsEnabled : Bool
  distributedTracing : Bool
deriving DecidableEq, Repr

/-- Analytics condition of the tween: global analytics enabled and the
setting not explicitly False, or the setting explicitly True. -/
def analyticsOn (globalEnabled : Bool) (setting : Option Bool) : Bool :=
  (globalEnabled && !(setting == some false)) || setting == some true

/-- Span as created by tracer.trace at the top of trace_tween, before the
handler runs: name pyramid.request, resource the literal string 404, span
type web, component and span.kind tags, measured flag. -/
def mkPyramidSpan (ps : PSettings) : Span :=
  { name := "pyramid.request"
    service := pyOrStr ps.service "pyramid"
    resource := "404"
    spanType := "web"
    tags := setTagStr (setTagStr [] COMPONENT "pyramid") SPAN_KIND SPAN_KIND_SERVER
    measured := true
    analyticsSet := analyticsOn ps.globalAnalyticsEnabled ps.analyticsEnabled
    meta := HttpMeta.empty
    error := false }

/-- Everything trace_tween produces for one request. -/
structure TweenOutput where
  span : Option Span
  result : TweenResult
  events : List TraceEvent
deriving DecidableEq, Repr

/-- Shallow embedding of trace_tween (pyramid/trace.py lines 74-133): the
span is created, the handler is invoked, the finally block sets route tags
and resource when a route matched, derives status and headers from the
response when one exists (a raised HTTPException counts as the response,
an unhandled exception leaves status at the fatal default 500), records
HTTP metadata, and the handler result or exception propagates unchanged.
No statement of the tween marks the span as errored. -/
def trace_tween (ps : PSettings) (req : PRequest) (run : HandlerRun) : TweenOutput :=
  let span0 := mkPyramidSpan ps
  let response : Option PResponse :=
    match run.outcome with
    | .ok r => some r
    | .httpException e => some e
    | .unhandled _ => none
  let status0 : Option StatusVal :=
    match run.outcome with
    | .unhandled _ => some (.int 500)
    | _ => none
  let span1 :=
    match run.matched_route with
    | some route =>
        { span0 with
          resource := req.method ++ " " ++ route.name
          tags := setTagStr span0.tags "pyramid.route.name" route.name }
    | none => span0
  let statusAndHeaders : Option StatusVal × Option (List (String × String)) :=
    match response with
    | some r => (some (.int r.status_code), some r.headers)
    | none => (status0, none)
  let span2 :=
    { span1 with
      meta := setHttpMeta span1.meta (some req.method) (some req.path_url)
        statusAndHeaders.1 (some req.query_string) (some req.headers)
        statusAndHeaders.2 (run.matched_route.map PRoute.pattern) }
  { span := some span2
    result := handlerResult run
    events := [.activateDistributedHeaders, .spanStart, .callHandler, .spanFinish] }

/-- Shallow embedding of trace_tween_factory (lines 64-138) applied to one
request: when the resolved enabled flag is set, the tracing tween runs;
otherwise the original handler is returned unchanged, so the request flows
through it alone, with no span and no tracer calls. -/
def trace_tween_factory (enabled : Bool) (ps : PSettings) (req : PRequest)
    (run : HandlerRun) : TweenOutput :=
  if enabled then trace_tween ps req run
  else { span := none, result := handlerResult run, events := [.callHandler] }

end Pyramid

namespace Molten

/-- The inbound molten request fields patch_app_call reads (built by
molten.http.Request.from_environ). -/
structure MRequest where
  method : String
  scheme : String
  host : String
  port : String
  path : String
  params : List (String × String)
  headers : List (String × String)
deriving DecidableEq, Repr

/-- What the wrapped WSGI app does during one dispatch, observed by the
instrumentation: the router wrapper may set the molten.route tag on the
ambient span before the response starts; the app may then invoke the
wrapped start_response callback with a status line and headers (none when
the connection aborts before a response is emitted); the returned body. -/
structure AppRun where
  routeName : Option String
  statusLine : Option String
  responseHeaders : List (String × String)
  body : String
deriving DecidableEq, Repr

/-- Span as created by pin.tracer.trace inside patch_app_call: name
molten.request, resource the dotted name of the wrapped callable computed
by func_name, span type web, component and span.kind tags, measured flag,
analytics sample rate set unconditionally. -/
def mkMoltenSpan (wrappedName : String) : Span :=
  { name := "molten.request"
    service := "molten"
    resource := wrappedName
    spanType := "web"
    tags := setTagStr (setTagStr [] COMPONENT "molten") SPAN_KIND SPAN_KIND_SERVER
    measured := true
    analyticsSet := true
    meta := HttpMeta.empty
    error := false }

/-- Status value computed by the shim from a status line: the token before
the first space, parsed by int() when possible and kept raw otherwise. -/
def parseStatusVal (status : String) : StatusVal :=
  let codeTok := (pyPartition status charSpace).1
  match pyIntParse codeTok with
  | some n => .int n
  | none => .str codeTok

/-- Shallow embedding of the nested _w_start_response shim (molten/patch.py
lines 113-135).  The first component is the span after the shim body ran,
the second records that the call forwarded to the wrapped start_response
(both branches of the source end in wrapped(*args, **kwargs)).  The status
token before the first space is parsed as an integer when possible; a
ValueError is swallowed and the raw token kept.  When the span carries no
truthy molten.route tag the resource is replaced by the request method, a
space and the rendered status value; then the status is recorded as HTTP
metadata.  The headers and exc_info arguments are unpacked but unused. -/
def w_start_response (pinEnabled : Bool) (method : String) (span : Span)
    (status : String) (_headers : List (String × String)) : Span × Bool :=
  if !pinEnabled then (span, true)
  else
    let code := parseStatusVal status
    let span1 :=
      if !(pyTruthyStrOpt (getTag span.tags MOLTEN_ROUTE)) then
        { span with resource := method ++ " " ++ code.render }
      else span
    let span2 :=
      { span1 with
        meta := setHttpMeta span1.meta none none (some code) none none none none }
    (span2, true)

/-- Everything patch_app_call produces for one request. -/
structure MoltenOutput where
  span : Option Span
  result : String
  events : List TraceEvent
deriving DecidableEq, Repr

/-- Shallow embedding of patch_app_call (molten/patch.py lines 78-152).
When the pin is absent or disabled the wrapped app is called directly with
the original arguments and its result returned, with no span.  Otherwise
distributed headers are activated, the span is created, HTTP metadata
(method, url, query, request headers) and the molten.version tag are set,
and the wrapped app runs with the shimmed start_response: the route tag it
sets and the status line it emits (if any) are applied to the span in that
order. -/
def patch_app_call (pinEnabled : Bool) (wrappedName moltenVersion : String)
    (req : MRequest) (run : AppRun) : MoltenOutput :=
  if !pinEnabled then
    { span := none, result := run.body, events := [.callWrappedApp] }
  else
    let span0 := mkMoltenSpan wrappedName
    let url := req.scheme ++ "://" ++ req.host ++ ":" ++ req.port ++ req.path
    let query := urlencodeModel (pyDict req.params)
    let span1 :=
      { span0 with
        meta := setHttpMeta span0.meta (some req.method) (some url) none
          (some query) (some req.headers) none none }
    let span2 := { span1 with tags := setTagStr span1.tags "molten.version" moltenVersion }
    let span3 :=
      match run.routeName with
      | some r => { span2 with tags := setTagStr span2.tags MOLTEN_ROUTE r }
      | none => span2
    let span4 :=
      match run.statusLine with
      | some st => (w_start_response pinEnabled req.method span3 st run.responseHeaders).1
      | none => span3
    { span := some span4
      result := run.body
      events := [.activateDistributedHeaders, .spanStart, .callWrappedApp, .spanFinish] }

/-- State of the process-wide molten patching performed by patch() (lines
49-61): the module guard flag, whether the pin is installed, and how many
wrappers have been layered onto each of the two entry points. -/
structure PatchState where
  datadogPatch : Bool
  pinSet : Bool
  baseAppInitWraps : Nat
  appCallWraps : Nat
deriving DecidableEq, Repr

/-- The unpatched module state. -/
def freshPatchState : PatchState := ⟨false, false, 0, 0⟩

/-- Shallow embedding of patch(): return immediately when the guard flag is
already set, otherwise set it, install the pin, and wrap BaseApp init and
App call once each. -/
def patch (s : PatchState) : PatchState :=
  if s.datadogPatch then s
  else
    { datadogPatch := true
      pinSet := true
      baseAppInitWraps := s.baseAppInitWraps + 1
      appCallWraps := s.appCallWraps + 1 }

end Molten

namespace Pyramid

/-- State of the process-wide renderer patching performed by includeme
(pyramid/trace.py lines 39-44): whether RendererHelper.render is already a
wrapt ObjectProxy, and how many wrappers have been layered onto it. -/
structure RendererPatchState where
  renderIsProxy : Bool
  renderWraps : Nat
deriving DecidableEq, Repr

/-- The unpatched renderer state. -/
def freshRendererState : RendererPatchState := ⟨false, 0⟩

/-- Shallow embedding of the renderer-wrapping half of includeme: wrap
RendererHelper.render with trace_render only when it is not already an
ObjectProxy. -/
def includeme (s : RendererPatchState) : RendererPatchState :=
  if s.renderIsProxy then s
  else ⟨true, s.renderWraps + 1⟩

/-- The request object as seen by trace_render: only whether the attribute
installed by the tween (a tracer stored under the name held in DD_TRACER)
is present and truthy matters to the wrapper. -/
structure RenderRequest where
  ddTracer : Bool
deriving DecidableEq, Repr

/-- Everything trace_render produces for one render call. -/
structure RenderOutput where
  span : Option Span
  result : String
  events : List TraceEvent
deriving DecidableEq, Repr

/-- Span created by tracer.trace in trace_render: name pyramid.render, span
type template, component tag. -/
def mkRenderSpan : Span :=
  { name := "pyramid.render"
    service := ""
    resource := "pyramid.render"
    spanType := "template"
    tags := setTagStr [] COMPONENT "pyramid"
    measured := false
    analyticsSet := false
    meta := HttpMeta.empty
    error := false }

/-- Shallow embedding of trace_render (lines 47-61): when the call carries
no request keyword argument (kwargs.get defaults to an empty, falsy dict)
or the request carries no truthy tracer attribute, the original render
function is invoked with unchanged arguments and its result returned, with
no span; otherwise the call runs inside a pyramid.render template span. -/
def trace_render (kwRequest : Option RenderRequest) (renderResult : String) :
    RenderOutput :=
  match kwRequest with
  | none =>
      { span := none, result := renderResult, events := [.callWrappedRender] }
  | some r =>
      if !r.ddTracer then
        { span := none, result := renderResult, events := [.callWrappedRender] }
      else
        { span := some mkRenderSpan
          result := renderResult
          events := [.spanStart, .callWrappedRender, .spanFinish] }

end Pyramid

section Claims

open Pyramid Molten

/-- Concrete pyramid tween run used by counterexamples: a GET request to an
undefined path, route never resolves, the framework produces a 404 response. -/
def unmatchedGetOut : TweenOutput :=
  trace_tween ⟨none, none, false, true⟩
    ⟨"GET", "http://host/missing", "", []⟩
    ⟨.ok ⟨404, []⟩, none⟩

/-- C1 counterexample: in the pyramid integration, a GET request whose
route never resolves and whose response is a 404 closes with resource the
literal string 404, not the claimed method-and-status form GET 404. -/
theorem claim_C1_counterexample :
    (unmatchedGetOut.span.map Span.resource) = some "404"
    ∧ (unmatchedGetOut.span.map Span.resource) ≠ some "GET 404" := by
  constructor
  · rfl
  · decide

/-- C1 (amended): when the route never resolves, the molten integration
does set the request span resource to the request method, a space and the
rendered status value once the response-emission shim fires; the pyramid
integration instead leaves the resource at the literal string 404,
independent of method and status. -/
theorem claim_C1 (ps : PSettings) (req : PRequest) (run : HandlerRun)
    (wn mv : String) (mreq : MRequest) (mrun : AppRun) (st : String)
    (hpr : run.matched_route = none)
    (hmr : mrun.routeName = none) (hst : mrun.statusLine = some st) :
    ((trace_tween ps req run).span.map Span.resource) = some "404"
    ∧ ((patch_app_call true wn mv mreq mrun).span.map Span.resource)
        = some (mreq.method ++ " " ++ (parseStatusVal st).render) := by
  constructor
  · simp [trace_tween, mkPyramidSpan, hpr]
  · simp [patch_app_call, mkMoltenSpan, w_start_response, hmr, hst,
      setTagStr, getTag, pyTruthyStrOpt, parseStatusVal,
      COMPONENT, SPAN_KIND, SPAN_KIND_SERVER, MOLTEN_ROUTE]

/-- C1 witness: the amended statement holds on a concrete unmatched GET
request with a 404 status line. -/
theorem claim_C1_witness :
    ((⟨.ok ⟨404, []⟩, none⟩ : HandlerRun).matched_route = none)
    ∧ ((⟨none, some "404 Not Found", [], "b"⟩ : AppRun).routeName = none)
    ∧ ((⟨none, some "404 Not Found", [], "b"⟩ : AppRun).statusLine = some "404 Not Found")
    ∧ (((trace_tween ⟨none, none, false, true⟩ ⟨"GET", "http://host/missing", "", []⟩
          ⟨.ok ⟨404, []⟩, none⟩).span.map Span.resource) = some "404"
        ∧ ((patch_app_call true "molten.app.App.__call__" "1.0.2"
              ⟨"GET", "http", "host", "8000", "/missing", [], []⟩
              ⟨none, some "404 Not Found", [], "b"⟩).span.map Span.resource)
            = some ("GET" ++ " " ++ (parseStatusVal "404 Not Found").render)) :=
  ⟨rfl, rfl, rfl,
    claim_C1 ⟨none, none, false, true⟩ ⟨"GET", "http://host/missing", "", []⟩
      ⟨.ok ⟨404, []⟩, none⟩ "molten.app.App.__call__" "1.0.2"
      ⟨"GET", "http", "host", "8000", "/missing", [], []⟩
      ⟨none, some "404 Not Found", [], "b"⟩ "404 Not Found" rfl rfl rfl⟩

/-- Concrete molten run used by the C2 counterexample: the router resolved
and the route tag was set, but with the empty string as the route name. -/
def emptyRouteTagOut : MoltenOutput :=
  patch_app_call true "molten.app.App.__call__" "1.0.2"
    ⟨"GET", "http", "host", "8000", "/x", [], []⟩
    ⟨some "", some "404 NOT FOUND", [], "b"⟩

/-- C2 counterexample: in the molten shim the route tag is present on the
span (stored with the empty string as value), yet the resource is
overwritten with the status-derived fallback GET 404 instead of keeping a
route-resolved name — the source tests the tag with Python truthiness, not
presence. -/
theorem claim_C2_counterexample :
    (emptyRouteTagOut.span.map (fun s => getTag s.tags MOLTEN_ROUTE)) = some (some "")
    ∧ (emptyRouteTagOut.span.map Span.resource) = some "GET 404"
    ∧ (emptyRouteTagOut.span.map Span.resource) ≠ some ("GET" ++ " " ++ "") := by
  refine ⟨rfl, rfl, ?_⟩
  decide

/-- C2 (amended): when routing succeeds, the pyramid tween sets the request
span resource to the request method, a space and the route name and sets
the route-name tag; and the molten response-emission shim leaves the
resource untouched whenever the route tag is present with a nonempty
value (an empty-string tag is treated as absent and the status fallback
applies). -/
theorem claim_C2 (ps : PSettings) (req : PRequest) (run : HandlerRun)
    (route : PRoute) (m st : String) (span : Span)
    (hdrs : List (String × String))
    (hpr : run.matched_route = some route)
    (htag : pyTruthyStrOpt (getTag span.tags MOLTEN_ROUTE) = true) :
    ((trace_tween ps req run).span.map Span.resource)
        = some (req.method ++ " " ++ route.name)
    ∧ ((trace_tween ps req run).span.map
        (fun s => getTag s.tags "pyramid.route.name")) = some (some route.name)
    ∧ (w_start_response true m span st hdrs).1.resource = span.resource := by
  refine ⟨?_, ?_, ?_⟩
  · simp [trace_tween, mkPyramidSpan, hpr]
  · simp [trace_tween, mkPyramidSpan, hpr, setTagStr, getTag,
      COMPONENT, SPAN_KIND, SPAN_KIND_SERVER]
  · simp [w_start_response, htag]

/-- C2 witness: the amended statement holds on a concrete matched pyramid
route and a concrete molten span carrying a nonempty route tag. -/
theorem claim_C2_witness :
    ((⟨.ok ⟨200, []⟩, some ⟨"home", "/items/X"⟩⟩ : HandlerRun).matched_route
        = some ⟨"home", "/items/X"⟩)
    ∧ pyTruthyStrOpt (getTag (mkMoltenSpan "w").tags MOLTEN_ROUTE) = false
    ∧ pyTruthyStrOpt
        (getTag (setTagStr (mkMoltenSpan "w").tags MOLTEN_ROUTE "hello") MOLTEN_ROUTE)
        = true
    ∧ (((trace_tween ⟨none, none, false, true⟩ ⟨"GET", "http://host/items/42", "", []⟩
          ⟨.ok ⟨200, []⟩, some ⟨"home", "/items/X"⟩⟩).span.map Span.resource)
        = some ("GET" ++ " " ++ "home")
      ∧ ((trace_tween ⟨none, none, false, true⟩ ⟨"GET", "http://host/items/42", "", []⟩
          ⟨.ok ⟨200, []⟩, some ⟨"home", "/items/X"⟩⟩).span.map
          (fun s => getTag s.tags "pyramid.route.name")) = some (some "home")
      ∧ (w_start_response true "GET"
          { mkMoltenSpan "w" with
              tags := setTagStr (mkMoltenSpan "w").tags MOLTEN_ROUTE "hello" }
          "200 OK" []).1.resource
        = ({ mkMoltenSpan "w" with
              tags := setTagStr (mkMoltenSpan "w").tags MOLTEN_ROUTE "hello" } : Span).resource) :=
  ⟨rfl, by decide, by decide,
    claim_C2 ⟨none, none, false, true⟩ ⟨"GET", "http://host/items/42", "", []⟩
      ⟨.ok ⟨200, []⟩, some ⟨"home", "/items/X"⟩⟩ ⟨"home", "/items/X"⟩ "GET" "200 OK"
      { mkMoltenSpan "w" with
          tags := setTagStr (mkMoltenSpan "w").tags MOLTEN_ROUTE "hello" }
      [] rfl (by decide)⟩

/-- C3 counterexample: the pyramid tween creates the request span with the
provisional resource the literal string 404, not the method followed by
the word unmatched, even for a GET request. -/
theorem claim_C3_counterexample :
    (mkPyramidSpan ⟨none, none, false, true⟩).resource = "404"
    ∧ (mkPyramidSpan ⟨none, none, false, true⟩).resource
        ≠ "GET" ++ " " ++ "unmatched" := by
  refine ⟨rfl, ?_⟩
  decide

/-- C3 (amended): the top-level span is created at request entry together
with the fixed tags (component id, span kind server, measured flag), but
its provisional resource name is the literal string 404 in the pyramid
integration and the dotted name of the wrapped WSGI callable in the molten
integration, never the method followed by the word unmatched. -/
theorem claim_C3 (ps : PSettings) (wn : String) :
    (mkPyramidSpan ps).resource = "404"
    ∧ getTag (mkPyramidSpan ps).tags COMPONENT = some "pyramid"
    ∧ getTag (mkPyramidSpan ps).tags SPAN_KIND = some SPAN_KIND_SERVER
    ∧ (mkPyramidSpan ps).measured = true
    ∧ (mkMoltenSpan wn).resource = wn
    ∧ getTag (mkMoltenSpan wn).tags COMPONENT = some "molten"
    ∧ getTag (mkMoltenSpan wn).tags SPAN_KIND = some SPAN_KIND_SERVER
    ∧ (mkMoltenSpan wn).measured = true := by
  refine ⟨rfl, ?_, ?_, rfl, rfl, ?_, ?_, rfl⟩ <;>
    simp [mkPyramidSpan, mkMoltenSpan, setTagStr, getTag,
      COMPONENT, SPAN_KIND, SPAN_KIND_SERVER]

/-- C4 (confirmed): when the wrapped handler raises a pyramid HTTPException
(a valid framework response such as a redirect), the tween records that
exception status code and its headers as the response metadata, re-raises
the same exception unchanged, and never marks the span as an error. -/
theorem claim_C4 (ps : PSettings) (req : PRequest) (run : HandlerRun)
    (e : PResponse) (h : run.outcome = .httpException e) :
    (trace_tween ps req run).result = .raisedHttp e
    ∧ ((trace_tween ps req run).span.map (fun s => s.meta.statusCode))
        = some (some (.int e.status_code))
    ∧ ((trace_tween ps req run).span.map (fun s => s.meta.responseHeaders))
        = some (some e.headers)
    ∧ ((trace_tween ps req run).span.map Span.error) = some false := by
  refine ⟨?_, ?_, ?_, ?_⟩ <;>
    cases hm : run.matched_route <;>
      simp [trace_tween, handlerResult, mkPyramidSpan, setHttpMeta, updOpt, h, hm]

/-- C4 witness: the statement holds for a concrete raised redirect. -/
theorem claim_C4_witness :
    ((⟨.httpException ⟨302, [("location", "/y")]⟩, none⟩ : HandlerRun).outcome
        = .httpException ⟨302, [("location", "/y")]⟩)
    ∧ ((trace_tween ⟨none, none, false, true⟩ ⟨"GET", "http://host/a", "", []⟩
          ⟨.httpException ⟨302, [("location", "/y")]⟩, none⟩).result
        = .raisedHttp ⟨302, [("location", "/y")]⟩
      ∧ ((trace_tween ⟨none, none, false, true⟩ ⟨"GET", "http://host/a", "", []⟩
          ⟨.httpException ⟨302, [("location", "/y")]⟩, none⟩).span.map
            (fun s => s.meta.statusCode)) = some (some (.int 302))
      ∧ ((trace_tween ⟨none, none, false, true⟩ ⟨"GET", "http://host/a", "", []⟩
          ⟨.httpException ⟨302, [("location", "/y")]⟩, none⟩).span.map
            (fun s => s.meta.responseHeaders)) = some (some [("location", "/y")])
      ∧ ((trace_tween ⟨none, none, false, true⟩ ⟨"GET", "http://host/a", "", []⟩
          ⟨.httpException ⟨302, [("location", "/y")]⟩, none⟩).span.map Span.error)
        = some false) :=
  ⟨rfl, claim_C4 ⟨none, none, false, true⟩ ⟨"GET", "http://host/a", "", []⟩
    ⟨.httpException ⟨302, [("location", "/y")]⟩, none⟩ ⟨302, [("location", "/y")]⟩ rfl⟩

/-- C5 (confirmed): when the wrapped handler raises an exception that is
not a pyramid HTTPException, the span records the fatal default status
500, the remaining HTTP metadata (method, url, query, request headers) is
still recorded in the finally block, and the same exception is re-raised
unchanged. -/
theorem claim_C5 (ps : PSettings) (req : PRequest) (run : HandlerRun)
    (n : String) (h : run.outcome = .unhandled n) :
    (trace_tween ps req run).result = .raisedOther n
    ∧ ((trace_tween ps req run).span.map (fun s => s.meta.statusCode))
        = some (some (.int 500))
    ∧ ((trace_tween ps req run).span.map (fun s => s.meta.method))
        = some (some req.method)
    ∧ ((trace_tween ps req run).span.map (fun s => s.meta.url))
        = some (some req.path_url)
    ∧ ((trace_tween ps req run).span.map (fun s => s.meta.query))
        = some (some req.query_string)
    ∧ ((trace_tween ps req run).span.map (fun s => s.meta.requestHeaders))
        = some (some req.headers) := by
  refine ⟨?_, ?_, ?_, ?_, ?_, ?_⟩ <;>
    cases hm : run.matched_route <;>
      simp [trace_tween, handlerResult, mkPyramidSpan, setHttpMeta, updOpt, h, hm]

/-- C5 witness: the statement holds for a concrete unhandled exception. -/
theorem claim_C5_witness :
    ((⟨.unhandled "ZeroDivisionError", none⟩ : HandlerRun).outcome
        = .unhandled "ZeroDivisionError")
    ∧ ((trace_tween ⟨none, none, false, true⟩
          ⟨"POST", "http://host/b", "x=1", [("h", "v")]⟩
          ⟨.unhandled "ZeroDivisionError", none⟩).result
        = .raisedOther "ZeroDivisionError"
      ∧ ((trace_tween ⟨none, none, false, true⟩
          ⟨"POST", "http://host/b", "x=1", [("h", "v")]⟩
          ⟨.unhandled "ZeroDivisionError", none⟩).span.map
            (fun s => s.meta.statusCode)) = some (some (.int 500))
      ∧ ((trace_tween ⟨none, none, false, true⟩
          ⟨"POST", "http://host/b", "x=1", [("h", "v")]⟩
          ⟨.unhandled "ZeroDivisionError", none⟩).span.map
            (fun s => s.meta.method)) = some (some "POST")
      ∧ ((trace_tween ⟨none, none, false, true⟩
          ⟨"POST", "http://host/b", "x=1", [("h", "v")]⟩
          ⟨.unhandled "ZeroDivisionError", none⟩).span.map
            (fun s => s.meta.url)) = some (some "http://host/b")
      ∧ ((trace_tween ⟨none, none, false, true⟩
          ⟨"POST", "http://host/b", "x=1", [("h", "v")]⟩
          ⟨.unhandled "ZeroDivisionError", none⟩).span.map
            (fun s => s.meta.query)) = some (some "x=1")
      ∧ ((trace_tween ⟨none, none, false, true⟩
          ⟨"POST", "http://host/b", "x=1", [("h", "v")]⟩
          ⟨.unhandled "ZeroDivisionError", none⟩).span.map
            (fun s => s.meta.requestHeaders)) = some (some [("h", "v")])) :=
  ⟨rfl, claim_C5 ⟨none, none, false, true⟩ ⟨"POST", "http://host/b", "x=1", [("h", "v")]⟩
    ⟨.unhandled "ZeroDivisionError", none⟩ "ZeroDivisionError" rfl⟩

/-- C6 (confirmed): for every status line handed to the shim, the call
forwards to the wrapped start_response, and whenever the token before the
first space is not a valid integer no exception escapes: the raw string
token is recorded as the status-code metadata. -/
theorem claim_C6 (m status : String) (span : Span)
    (hdrs : List (String × String))
    (hfail : pyIntParse (pyPartition status charSpace).1 = none) :
    (w_start_response true m span status hdrs).2 = true
    ∧ (w_start_response true m span status hdrs).1.meta.statusCode
        = some (.str (pyPartition status charSpace).1) := by
  constructor
  · simp [w_start_response]
  · cases ht : pyTruthyStrOpt (getTag span.tags MOLTEN_ROUTE) <;>
      simp [w_start_response, parseStatusVal, setHttpMeta, updOpt, hfail, ht]

/-- C6 witness: a status line whose first token is not an integer is
tolerated and the raw token is kept. -/
theorem claim_C6_witness :
    pyIntParse (pyPartition "xyz NOT FOUND" charSpace).1 = none
    ∧ ((w_start_response true "GET" (mkMoltenSpan "w") "xyz NOT FOUND" []).2 = true
      ∧ (w_start_response true "GET" (mkMoltenSpan "w") "xyz NOT FOUND" []).1.meta.statusCode
          = some (.str (pyPartition "xyz NOT FOUND" charSpace).1)) :=
  ⟨by decide, claim_C6 "GET" "xyz NOT FOUND" (mkMoltenSpan "w") [] (by decide)⟩

/-- C7 (confirmed): with the tracer disabled (pyramid) or the pin absent or
disabled (molten), and for a render call that carries no traced request,
every public entry point is a pure passthrough: the wrapped callable runs
with its original arguments, its exact result is returned, and no span is
created. -/
theorem claim_C7 (ps : PSettings) (req : PRequest) (run : HandlerRun)
    (wn mv : String) (mreq : MRequest) (mrun : AppRun) (rr : String) :
    trace_tween_factory false ps req run
      = ⟨none, handlerResult run, [.callHandler]⟩
    ∧ patch_app_call false wn mv mreq mrun
      = ⟨none, mrun.body, [.callWrappedApp]⟩
    ∧ trace_render none rr = ⟨none, rr, [.callWrappedRender]⟩ := by
  refine ⟨rfl, ?_, rfl⟩
  simp [patch_app_call]

/-- One patch application marks the module patched and adds exactly one
wrapper to each molten entry point. -/
theorem molten_patch_fresh :
    Molten.patch Molten.freshPatchState = ⟨true, true, 1, 1⟩ := rfl

/-- A patched molten module state is a fixed point of patch. -/
theorem molten_patch_fixed (s : Molten.PatchState) (h : s.datadogPatch = true) :
    Molten.patch s = s := by
  simp [Molten.patch, h]

/-- Iterating patch on a patched molten module state changes nothing. -/
theorem molten_patch_iterate_fixed (k : ℕ) (s : Molten.PatchState)
    (h : s.datadogPatch = true) : Molten.patch^[k] s = s := by
  induction k with
  | zero => rfl
  | succ k ih =>
      rw [Function.iterate_succ_apply, molten_patch_fixed s h, ih]

/-- One includeme call on an unwrapped renderer wraps it exactly once. -/
theorem pyramid_includeme_fresh :
    Pyramid.includeme Pyramid.freshRendererState = ⟨true, 1⟩ := rfl

/-- A renderer that is already a proxy is a fixed point of includeme. -/
theorem pyramid_includeme_fixed (s : Pyramid.RendererPatchState)
    (h : s.renderIsProxy = true) : Pyramid.includeme s = s := by
  simp [Pyramid.includeme, h]

/-- Iterating includeme on an already wrapped renderer changes nothing. -/
theorem pyramid_includeme_iterate_fixed (k : ℕ) (s : Pyramid.RendererPatchState)
    (h : s.renderIsProxy = true) : Pyramid.includeme^[k] s = s := by
  induction k with
  | zero => rfl
  | succ k ih =>
      rw [Function.iterate_succ_apply, pyramid_includeme_fixed s h, ih]

/-- After any patch application the molten module guard flag is set. -/
theorem molten_patch_patched (s : Molten.PatchState) :
    (Molten.patch s).datadogPatch = true := by
  by_cases hs : s.datadogPatch = true <;> simp [Molten.patch, hs]

/-- After any includeme application the renderer is a proxy. -/
theorem pyramid_includeme_proxied (t : Pyramid.RendererPatchState) :
    (Pyramid.includeme t).renderIsProxy = true := by
  by_cases ht : t.renderIsProxy = true <;> simp [Pyramid.includeme, ht]

/-- C8 (confirmed): installing the instrumentation is idempotent.  Starting
from the unpatched state, any positive number of patch invocations leaves
each molten entry point wrapped exactly once, and any positive number of
includeme invocations leaves the pyramid renderer wrapped exactly once;
moreover a second application on any state is a no-op over the first. -/
theorem claim_C8 (n : ℕ) (s : Molten.PatchState)
    (t : Pyramid.RendererPatchState) (h : 1 ≤ n) :
    Molten.patch^[n] Molten.freshPatchState = ⟨true, true, 1, 1⟩
    ∧ Pyramid.includeme^[n] Pyramid.freshRendererState = ⟨true, 1⟩
    ∧ Molten.patch (Molten.patch s) = Molten.patch s
    ∧ Pyramid.includeme (Pyramid.includeme t) = Pyramid.includeme t := by
  obtain ⟨k, rfl⟩ : ∃ k, n = k + 1 := ⟨n - 1, (Nat.succ_pred_eq_of_pos h).symm⟩
  refine ⟨?_, ?_, ?_, ?_⟩
  · rw [Function.iterate_succ_apply, molten_patch_fresh,
      molten_patch_iterate_fixed k _ rfl]
  · rw [Function.iterate_succ_apply, pyramid_includeme_fresh,
      pyramid_includeme_iterate_fixed k _ rfl]
  · exact molten_patch_fixed _ (molten_patch_patched s)
  · exact pyramid_includeme_fixed _ (pyramid_includeme_proxied t)

/-- C8 witness: two installations behave as one on concrete states. -/
theorem claim_C8_witness :
    1 ≤ 2
    ∧ (Molten.patch^[2] Molten.freshPatchState = ⟨true, true, 1, 1⟩
      ∧ Pyramid.includeme^[2] Pyramid.freshRendererState = ⟨true, 1⟩
      ∧ Molten.patch (Molten.patch ⟨false, false, 0, 0⟩)
          = Molten.patch ⟨false, false, 0, 0⟩
      ∧ Pyramid.includeme (Pyramid.includeme ⟨false, 0⟩)
          = Pyramid.includeme ⟨false, 0⟩) :=
  ⟨by decide, claim_C8 2 ⟨false, false, 0, 0⟩ ⟨false, 0⟩ (by decide)⟩

/-- C9 (confirmed): for every traced request in either integration, the
call that extracts and activates the distributed context from the inbound
headers occurs strictly before the span-start call in the recorded event
order, so the extracted context is active when the request span opens. -/
theorem claim_C9 (enabled pinEnabled : Bool) (ps : PSettings) (req : PRequest)
    (run : HandlerRun) (wn mv : String) (mreq : MRequest) (mrun : AppRun)
    (hen : enabled = true) (hpin : pinEnabled = true) :
    (TraceEvent.activateDistributedHeaders
        ∈ (trace_tween_factory enabled ps req run).events
      ∧ TraceEvent.spanStart ∈ (trace_tween_factory enabled ps req run).events
      ∧ (trace_tween_factory enabled ps req run).events.indexOf
            TraceEvent.activateDistributedHeaders
          < (trace_tween_factory enabled ps req run).events.indexOf
            TraceEvent.spanStart)
    ∧ (TraceEvent.activateDistributedHeaders
        ∈ (patch_app_call pinEnabled wn mv mreq mrun).events
      ∧ TraceEvent.spanStart ∈ (patch_app_call pinEnabled wn mv mreq mrun).events
      ∧ (patch_app_call pinEnabled wn mv mreq mrun).events.indexOf
            TraceEvent.activateDistributedHeaders
          < (patch_app_call pinEnabled wn mv mreq mrun).events.indexOf
            TraceEvent.spanStart) := by
  subst hen hpin
  refine ⟨⟨?_, ?_, ?_⟩, ⟨?_, ?_, ?_⟩⟩ <;>
    simp [trace_tween_factory, trace_tween, patch_app_call, List.indexOf,
      List.findIdx, List.findIdx.go] <;> decide

/-- C9 witness: the ordering holds on a concrete traced request in each
integration. -/
theorem claim_C9_witness :
    (true = true)
    ∧ ((TraceEvent.activateDistributedHeaders
          ∈ (trace_tween_factory true ⟨none, none, false, true⟩
              ⟨"GET", "http://host/a", "", []⟩ ⟨.ok ⟨200, []⟩, none⟩).events
        ∧ TraceEvent.spanStart
          ∈ (trace_tween_factory true ⟨none, none, false, true⟩
              ⟨"GET", "http://host/a", "", []⟩ ⟨.ok ⟨200, []⟩, none⟩).events
        ∧ (trace_tween_factory true ⟨none, none, false, true⟩
              ⟨"GET", "http://host/a", "", []⟩ ⟨.ok ⟨200, []⟩, none⟩).events.indexOf
              TraceEvent.activateDistributedHeaders
            < (trace_tween_factory true ⟨none, none, false, true⟩
              ⟨"GET", "http://host/a", "", []⟩ ⟨.ok ⟨200, []⟩, none⟩).events.indexOf
              TraceEvent.spanStart)
      ∧ (TraceEvent.activateDistributedHeaders
          ∈ (patch_app_call true "w" "1.0" ⟨"GET", "http", "h", "80", "/", [], []⟩
              ⟨none, some "200 OK", [], "b"⟩).events
        ∧ TraceEvent.spanStart
          ∈ (patch_app_call true "w" "1.0" ⟨"GET", "http", "h", "80", "/", [], []⟩
              ⟨none, some "200 OK", [], "b"⟩).events
        ∧ (patch_app_call true "w" "1.0" ⟨"GET", "http", "h", "80", "/", [], []⟩
              ⟨none, some "200 OK", [], "b"⟩).events.indexOf
              TraceEvent.activateDistributedHeaders
            < (patch_app_call true "w" "1.0" ⟨"GET", "http", "h", "80", "/", [], []⟩
              ⟨none, some "200 OK", [], "b"⟩).events.indexOf
              TraceEvent.spanStart)) :=
  ⟨rfl, claim_C9 true true ⟨none, none, false, true⟩ ⟨"GET", "http://host/a", "", []⟩
    ⟨.ok ⟨200, []⟩, none⟩ "w" "1.0" ⟨"GET", "http", "h", "80", "/", [], []⟩
    ⟨none, some "200 OK", [], "b"⟩ rfl rfl⟩

/-- C10 (confirmed): when the render call carries no request keyword
argument, or the request does not carry the tracer attribute installed by
the tween, trace_render invokes the original render function with
unchanged arguments, returns its result, and creates no span. -/
theorem claim_C10 (kwRequest : Option RenderRequest) (rr : String)
    (h : kwRequest = none
      ∨ ∃ r, kwRequest = some r ∧ r.ddTracer = false) :
    (trace_render kwRequest rr).result = rr
    ∧ (trace_render kwRequest rr).span = none
    ∧ (trace_render kwRequest rr).events = [.callWrappedRender] := by
  rcases h with h | ⟨r, hr, hd⟩
  · subst h
    exact ⟨rfl, rfl, rfl⟩
  · subst hr
    refine ⟨?_, ?_, ?_⟩ <;> simp [trace_render, hd]

/-- C10 witness: a render call with no request keyword is a passthrough. -/
theorem claim_C10_witness :
    ((none : Option RenderRequest) = none
      ∨ ∃ r, (none : Option RenderRequest) = some r ∧ r.ddTracer = false)
    ∧ ((trace_render none "rendered").result = "rendered"
      ∧ (trace_render none "rendered").span = none
      ∧ (trace_render none "rendered").events = [.callWrappedRender]) :=
  ⟨Or.inl rfl, claim_C10 none "rendered" (Or.inl rfl)⟩

end Claims

end DDTrace
